import Mathlib

/-
  Verification development for the Wonderland_Share bot's image-caching
  fetch/render/upload pipeline.

  Shallow embedding of:
    - src/config/db_utils.py   (image cache ledger: get/save/delete)
    - src/config/database.py   (CachedImage rows)
    - src/bot/utils/images.py  (filename generation, extension guessing,
                                download_image, upload helper behaviour)
    - src/bot/cogs/wonderland.py (the delivery pipeline / orchestrator)
    - src/bot/__main__.py      (periodic cache cleanup task)

  External effects (HTTP, Discord sends, the SQLAlchemy session, the clock,
  uuid4) are modelled by explicit oracle inputs; machine state (the ledger
  rows, the set of scratch files, the list of delivered messages) is threaded
  explicitly.  Python truthiness of optional strings and dicts is modelled
  by explicit helper functions.
-/

/-! ## Ledger data model (src/config/database.py, class CachedImage) -/

/-- A row of the `cached_images` table.  `id` is an auto-increment surrogate
key and plays no role in the queries, so it is omitted; timestamps are
modelled as naturals. -/
structure CacheRow where
  guid : String
  server : String
  image_url : String
  original_url : Option String
  created_at : Nat
  updated_at : Nat
  deriving Repr, DecidableEq

/-- The ledger state: the rows of `cached_images`, in query order. -/
abbrev Ledger := List CacheRow

/-- Whether a row matches the composite key (guid, server), as in the
`filter(CachedImage.guid == guid, CachedImage.server == server)` clauses. -/
def rowMatches (g s : String) (r : CacheRow) : Bool :=
  r.guid == g && r.server == s

/-- `.first()` over the filtered query: the first row with the key. -/
def findRow (L : Ledger) (g s : String) : Option CacheRow :=
  L.find? (rowMatches g s)

/-- Number of rows holding the key (g, s). -/
def countKey (L : Ledger) (g s : String) : Nat :=
  (L.filter (rowMatches g s)).length

/-- The single-row invariant of the spec: at most one CacheEntry per key. -/
def atMostOne (L : Ledger) : Prop :=
  ∀ g s, countKey L g s ≤ 1

/-! ## Ledger operations (src/config/db_utils.py) -/

/-- Projection returned by `get_cached_image`: the dict
`{image_url, created_at, updated_at}` built from the found row. -/
structure CachedDict where
  image_url : String
  created_at : Nat
  updated_at : Nat
  deriving Repr, DecidableEq

/-- `get_cached_image(guid, server)`.  `ok = false` models a
`SQLAlchemyError` during the query, in which case the function logs and
returns `None`; otherwise the first row with the key is projected. -/
def get_cached_image (ok : Bool) (guid server : String) (L : Ledger) :
    Option CachedDict :=
  if ok then
    (findRow L guid server).map fun r =>
      { image_url := r.image_url, created_at := r.created_at,
        updated_at := r.updated_at }
  else none

/-- Core of `save_cached_image`'s successful path: update the first row with
the key in place (image_url, original_url, updated_at — `onupdate` sets
updated_at), or add a fresh row when none exists (created_at = updated_at =
now). -/
def upsertRows (g s url : String) (orig : Option String) (now : Nat) :
    Ledger → Ledger
  | [] => [{ guid := g, server := s, image_url := url, original_url := orig,
             created_at := now, updated_at := now }]
  | r :: rs =>
    if rowMatches g s r then
      { r with image_url := url, original_url := orig, updated_at := now } :: rs
    else r :: upsertRows g s url orig now rs

/-- `save_cached_image(guid, server, image_url, original_url)`.  `ok = false`
models a `SQLAlchemyError`: the session is rolled back (state unchanged) and
`False` is returned; otherwise the upsert commits and `True` is returned. -/
def save_cached_image (ok : Bool) (guid server image_url : String)
    (original_url : Option String) (now : Nat) (L : Ledger) : Bool × Ledger :=
  if ok then (true, upsertRows guid server image_url original_url now L)
  else (false, L)

/-- `delete_cached_image(guid, server)`.  `ok = false` models a
`SQLAlchemyError` (rollback, `False`); otherwise `query(...).delete()`
removes every row with the key and the returned Bool says whether any row
was deleted. -/
def delete_cached_image (ok : Bool) (guid server : String) (L : Ledger) :
    Bool × Ledger :=
  if ok then
    let kept := L.filter fun r => !(rowMatches guid server r)
    (decide (kept.length < L.length), kept)
  else (false, L)

/-! ## Python truthiness helpers -/

/-- Truthiness of an optional string: `None` and `""` are falsy. -/
def truthyOpt : Option String → Bool
  | none => false
  | some s => !s.isEmpty

/-- Python `a or b` for `a` an optional string and `b` a string: falsy `a`
(absent or empty) falls through to `b`. -/
def pyOrStr (a : Option String) (b : String) : String :=
  match a with
  | some s => if s.isEmpty then b else s
  | none => b

/-! ## Content store helpers (src/bot/utils/images.py) -/

/-- `_guess_extension_from_content(content, content_type)`.  The `imghdr.what`
sniff of the downloaded bytes is a stdlib call and is passed in as the oracle
`sniffed` (its result, `None` when inconclusive).  On an inconclusive sniff
the `Content-Type` header is consulted: an `image/<subtype>` type yields the
subtype with parameters stripped (`jpeg` normalised to `jpg`), anything else
falls back to `bin`. -/
def guess_extension_from_content (sniffed content_type : Option String) :
    String :=
  match sniffed with
  | some kind => if kind == "jpeg" then "jpg" else kind
  | none =>
    match content_type with
    | some ct =>
      match ct.splitOn "/" with
      | main :: rest =>
        if rest ≠ [] && main == "image" then
          let subtype := String.intercalate "/" rest
          let subtype := (subtype.splitOn ";").headD subtype
          if subtype == "jpeg" then "jpg" else subtype
        else "bin"
      | [] => "bin"
    | none => "bin"

/-- `_make_filename(guid, server, ext)`.  `timestamp` is the oracle for
`int(time.time())` (whole seconds) and `uuidHex` the oracle for
`uuid.uuid4().hex`, used only when `guid` is falsy.  Python truthiness of the
optional arguments is respected (an empty string counts as absent). -/
def make_filename (guid server : Option String) (timestamp : Nat)
    (uuidHex : String) (ext : String) : String :=
  if truthyOpt guid && truthyOpt server then
    guid.getD "" ++ "_" ++ server.getD "" ++ "_" ++ toString timestamp
      ++ "." ++ ext
  else if truthyOpt guid then
    guid.getD "" ++ "_" ++ toString timestamp ++ "." ++ ext
  else
    uuidHex ++ "_" ++ toString timestamp ++ "." ++ ext

/-- Failure modes of `download_image`. -/
inductive DlError where
  /-- `aiohttp.ClientResponseError` raised on a non-200 status. -/
  | httpError (status : Nat)
  /-- `ValueError("Downloaded content is empty")`. -/
  | emptyContent
  deriving Repr, DecidableEq

/-- `download_image(url, guid, server, cache_dir)` after the GET returned a
response: `status` and `content` are the response's status and body bytes,
`sniffed`/`content_type` feed the extension guess.  The second component
lists the files the call wrote into the content store (the source writes the
file only after both checks pass, then returns its path). -/
def download_image (status : Nat) (content : List UInt8)
    (sniffed content_type : Option String) (guid server : Option String)
    (timestamp : Nat) (uuidHex : String) (cache_dir : String) :
    Except DlError String × List String :=
  if status ≠ 200 then (.error (.httpError status), [])
  else if content.isEmpty then (.error .emptyContent, [])
  else
    let ext := guess_extension_from_content sniffed content_type
    let filename := make_filename guid server timestamp uuidHex ext
    let path := cache_dir ++ "/" ++ filename
    (.ok path, [path])

/-- `remove_cached_file(path)` over a list of existing scratch files:
removes the path when present and reports whether it was removed. -/
def remove_cached_file (path : String) (files : List String) :
    Bool × List String :=
  if path ∈ files then (true, files.filter fun f => f ≠ path)
  else (false, files)

/-! ## Sweeper -/

/-- A directory entry as seen by the sweeper: its name, whether it is a
regular file, and its modification time (seconds). -/
structure FsEntry where
  name : String
  isRegularFile : Bool
  mtime : Nat
  deriving Repr, DecidableEq

/-- Whether the sweeper deletes a directory entry: it is a regular file and
its age at sweep time exceeds the threshold. -/
def sweepDoomed (now max_age_seconds : Nat) (e : FsEntry) : Bool :=
  e.isRegularFile && decide (now - e.mtime > max_age_seconds)

/-- Modelled from the spec: `cleanup_old_cache_files(cache_dir,
max_age_seconds)` is imported from `bot.utils.images` in `src/bot/__main__.py`
but its definition is not among the provided sources; the spec's Sweeper
contract says it scans the content-store directory non-recursively, deletes
the regular files whose modification time exceeds the age threshold, and
returns the count deleted.  The directory is modelled as its flat
(non-recursive) listing; the call returns the count and the surviving
entries. -/
def cleanup_old_cache_files (now max_age_seconds : Nat) :
    List FsEntry → Nat × List FsEntry
  | [] => (0, [])
  | e :: es =>
    let (c, rest) := cleanup_old_cache_files now max_age_seconds es
    if sweepDoomed now max_age_seconds e then
      (c + 1, rest)
    else (c, e :: rest)

/-- The cache directory the periodic task passes to the sweeper
(src/bot/__main__.py, `periodic_cache_cleanup`). -/
def periodic_cleanup_cache_dir : String := ".cache"

/-- `periodic_cache_cleanup` (src/bot/__main__.py): the hourly task invokes
the sweeper with `max_age_seconds = 3600`. -/
def periodic_cache_cleanup (now : Nat) (dir : List FsEntry) :
    Nat × List FsEntry :=
  cleanup_old_cache_files now 3600 dir

/-! ## Input validation (Python str.isdigit) -/

/-- Whether a character counts as a digit for Python's `str.isdigit`.
Python accepts every Unicode character of category Nd plus characters with
Numeric_Type Digit; modelled here on the code points this development needs:
the ASCII digits together with a sample of the further code points Python
documents as digits (the Latin-1 superscripts one, two, three; the
Arabic-Indic, Extended Arabic-Indic, Devanagari and Fullwidth decimal digit
blocks). -/
def pyIsDigitChar (c : Char) : Bool :=
  let n := c.toNat
  (48 ≤ n && n ≤ 57)
    || (n == 0xB9 || n == 0xB2 || n == 0xB3)
    || (0x660 ≤ n && n ≤ 0x669)
    || (0x6F0 ≤ n && n ≤ 0x6F9)
    || (0x966 ≤ n && n ≤ 0x96F)
    || (0xFF10 ≤ n && n ≤ 0xFF19)

/-- Python `s.isdigit()`: non-empty and every character a digit. -/
def pyIsDigit (s : String) : Bool :=
  !s.data.isEmpty && s.data.all pyIsDigitChar

/-- The spec's validation predicate, written from its words: `levelId`
matches the regular expression `^[0-9]+$`, i.e. it is a non-empty string of
ASCII decimal digits.  Kept separate from `pyIsDigit` (which embeds the
source's check) so the two can be compared. -/
def matchesNumRegex (s : String) : Bool :=
  !s.data.isEmpty && s.data.all fun c => 48 ≤ c.toNat && c.toNat ≤ 57

/-! ## Response envelope (parsed JSON, as accessed by wonderland.py) -/

/-- The value found under `level_info['cover_img']` by
`level_info.get('cover_img', {}).get('url')`:
* `missing` — no `cover_img` key: the `{}` default makes `.get('url')`
  return `None`;
* `nonDict` — a `cover_img` value that is not a dict (including `null`):
  `.get('url')` on it raises an uncaught `AttributeError` at render time
  (wonderland.py line 157);
* `dict url` — a dict, whose `url` member is `url` (`none` when absent). -/
inductive CoverImgField where
  | missing
  | nonDict
  | dict (url : Option String)
  deriving Repr, DecidableEq

/-- The slice of a dict-shaped `level_info` the cog reads: `level_name`,
`desc`, `cover_img`, `level_id`, each through `.get` (hence optional). -/
structure LevelInfo where
  level_name : Option String
  desc : Option String
  cover_img : CoverImgField
  level_id : Option String
  deriving Repr, DecidableEq

/-- `level_info.get('cover_img', {}).get('url')` on the shapes where that
expression returns: the `url` member of a dict `cover_img`, `None` when
`cover_img` is absent.  (On a non-dict `cover_img` the code raises before
this value is ever used; `wonderland` below checks that case first.) -/
def LevelInfo.cover_img_url (i : LevelInfo) : Option String :=
  match i.cover_img with
  | CoverImgField.dict url => url
  | _ => none

/-- The value extracted by
`level_detail['data']['level_detail_response']['level_info']`:
* `nonDict` — extraction succeeded but the value is not a dict (including
  `null`): the following `level_info.get('level_name', 'N/A')` raises an
  uncaught `AttributeError` (wonderland.py line 155);
* `dict info` — a dict, read through its `.get` accesses. -/
inductive LevelInfoVal where
  | nonDict
  | dict (info : LevelInfo)
  deriving Repr, DecidableEq

/-- `level_detail['data']` when truthy: `level_info_val` holds the value of
`data['level_detail_response']['level_info']` when both subscripts succeed;
`none` models the `KeyError`/`TypeError` the code catches — a missing key,
or a truthy non-dict `data` whose subscripting raises a caught
`TypeError`. -/
structure LevelDetailData where
  level_info_val : Option LevelInfoVal
  deriving Repr, DecidableEq

/-- The extracted `level_info` when it is a dict (`none` when the
extraction fails or yields a non-dict). -/
def LevelDetailData.level_info (d : LevelDetailData) : Option LevelInfo :=
  match d.level_info_val with
  | some (LevelInfoVal.dict info) => some info
  | _ => none

/-- A truthy dict `level_detail`: `retcode` and `message` as read by
`.get`, and `data_` for its `data` member (`none` models a missing or
falsy `data`). -/
structure LevelDetail where
  retcode : Option Int
  message : Option String
  data_ : Option LevelDetailData
  deriving Repr, DecidableEq

/-- The value of `resp_map.get('level_detail', {})`:
* `missingOrFalsy` — key absent (`{}` default) or a falsy value of any
  type: `not level_detail` sends the code into the nested error branch
  with no eviction (the `isinstance` guard skips non-dicts, and a falsy
  dict reads `retcode` as the default 0);
* `truthyNonDict` — a truthy value that is not a dict:
  `level_detail.get('retcode', 0)` raises an uncaught `AttributeError`
  (wonderland.py line 108);
* `dict ld` — a truthy dict. -/
inductive LevelDetailField where
  | missingOrFalsy
  | truthyNonDict
  | dict (ld : LevelDetail)
  deriving Repr, DecidableEq

/-- The value of `data['data']['resp_map']`:
* `missingOrNonDict` — key absent (`{}` default) or a non-dict value: the
  `isinstance(resp_map, dict)` guard turns both into `level_detail = {}`;
* `dict level_detail` — a dict, read through `.get('level_detail', {})`. -/
inductive RespMapField where
  | missingOrNonDict
  | dict (level_detail : LevelDetailField)
  deriving Repr, DecidableEq

/-- The value of `data['data']`:
* `missing` — key absent: the `{}` default yields `resp_map = {}` and so a
  falsy `level_detail`;
* `nonDict` — present but `null` or not a dict: `.get('resp_map', {})` on
  it raises an uncaught `AttributeError` (wonderland.py line 104 — the
  `isinstance` guard on the next line protects only `resp_map`);
* `dict resp_map` — a dict. -/
inductive DataField where
  | missing
  | nonDict
  | dict (resp_map : RespMapField)
  deriving Repr, DecidableEq

/-- A dict-shaped decoded top-level envelope: `retcode` and `message` as
read by `.get`, and `data_` for the `data` member. -/
structure ApiBody where
  retcode : Option Int
  message : Option String
  data_ : DataField
  deriving Repr, DecidableEq

/-- The nested `level_detail` when the whole
`data['data']['resp_map']['level_detail']` path is dict-shaped and truthy
(`none` on every other shape). -/
def ApiBody.level_detail (b : ApiBody) : Option LevelDetail :=
  match b.data_ with
  | DataField.dict (RespMapField.dict (LevelDetailField.dict ld)) => some ld
  | _ => none

/-- Outcome of `await response.json()`: a dict body; a successfully decoded
non-dict body (array, string, number or `null`), on which
`data.get("retcode")` raises an uncaught `AttributeError`
(wonderland.py line 89); a `json.JSONDecodeError`, which the code catches
and turns into an error card; or some other exception such as
`aiohttp.ContentTypeError`, which the code does not catch. -/
inductive DecodeOutcome where
  | ok (body : ApiBody)
  | okNonDict
  | jsonDecodeError
  | otherError
  deriving Repr, DecidableEq

/-! ## Pipeline environment and observable outcome -/

/-- Oracle for every external effect one `wonderland` invocation performs,
in source order:
* `deferOk` — whether `interaction.response.defer()` succeeds (on failure
  the cog switches to channel-fallback sends);
* `postRaises` — whether `session.post` itself raises (connection-level
  failure, not a bad status);
* `status` — the HTTP status of the lookup response;
* `decode` — outcome of parsing the response body;
* `dbGetOk`/`dbSaveOk`/`dbDeleteOk` — whether the respective ledger
  operation runs without a database error;
* `downloadResult` — the scratch path `download_image` returns, or `none`
  when it raises (any exception: bad status, empty body, network failure);
* `uploadSendOk` — whether the send inside `upload_file_via_interaction`
  succeeds (the helper catches a failure and returns `None`);
* `hostedUrl` — the attachment URL the helper retrieves after a successful
  send, inline or through its fetch-with-backoff loop (`none` when retries
  exhaust);
* `channelAvailable` — whether `interaction.channel` exists and has a
  usable `send` in fallback mode;
* `sendRaises` — whether the cog-level direct sends
  (`interaction.response.send_message`, `interaction.followup.send`,
  `channel.send`) raise; these calls are not wrapped in the source, so a
  raise propagates out of the command. -/
structure Env where
  deferOk : Bool
  postRaises : Bool
  status : Nat
  decode : DecodeOutcome
  dbGetOk : Bool
  dbSaveOk : Bool
  dbDeleteOk : Bool
  downloadResult : Option String
  uploadSendOk : Bool
  hostedUrl : Option String
  channelAvailable : Bool
  sendRaises : Bool
  deriving Repr, DecidableEq

/-- The rendered card, as far as the claims observe it: the embed's title,
description and image slot.  (The embed's fields and the link buttons are
substituted from the same template but carry no state the claims mention.) -/
structure Card where
  title : String
  description : String
  image : Option String
  deriving Repr, DecidableEq

/-- A message delivered to the user: an error embed, or the rendered card
(`attached = true` when the message carried the uploaded file). -/
inductive Delivered where
  | errorCard (desc : String)
  | card (c : Card) (attached : Bool)
  deriving Repr, DecidableEq

/-- Observable outcome of one `wonderland` invocation. -/
structure RunResult where
  /-- An exception escaped the command handler. -/
  raised : Bool
  /-- Messages delivered to the user, in order. -/
  sent : List Delivered
  /-- Lookup POSTs issued. -/
  lookupCalls : Nat
  /-- Calls to `download_image`. -/
  downloadCalls : Nat
  /-- Upload sends attempted inside the upload helper. -/
  uploadSendCalls : Nat
  /-- Keys passed to `delete_cached_image`. -/
  deleteAttempts : List (String × String)
  /-- Final ledger state. -/
  ledger : Ledger
  /-- Scratch files still on disk at the end. -/
  scratchFiles : List String
  deriving Repr, DecidableEq

/-- One cog-level direct send (the repeated
`if use_channel_fallback: ... channel.send(...) else: ... followup.send(...)`
blocks).  In fallback mode the message is silently dropped when no usable
channel exists; otherwise a raising send propagates. -/
def deliverMsg (env : Env) (fallback : Bool) (r : RunResult)
    (m : Delivered) : RunResult :=
  if fallback then
    if env.channelAvailable then
      if env.sendRaises then { r with raised := true }
      else { r with sent := r.sent ++ [m] }
    else r
  else
    if env.sendRaises then { r with raised := true }
    else { r with sent := r.sent ++ [m] }

/-- The image leg of the cache-miss path, from `download_image` onwards
(wonderland.py lines 207–250): download to a scratch file, set the embed
image to the attachment reference, upload through
`upload_file_via_interaction`, on a retrieved hosted URL save it to the
ledger, and always remove the scratch file. -/
def imageMissLeg (env : Env) (fallback : Bool) (guid server : String)
    (cover_url : String) (now : Nat) (card : Card) (r : RunResult) :
    RunResult :=
  match env.downloadResult with
  | none =>
    -- download_image raised: send the embed as rendered (its image slot was
    -- populated from the template at render time and is not cleared here).
    deliverMsg env fallback { r with downloadCalls := r.downloadCalls + 1 }
      (.card card false)
  | some file_path =>
    let r := { r with downloadCalls := r.downloadCalls + 1,
                      scratchFiles := r.scratchFiles ++ [file_path] }
    let card := { card with image := some ("attachment://" ++ file_path) }
    -- upload_file_via_interaction: in fallback mode without a channel the
    -- helper raises; the cog catches it.  Otherwise the helper attempts the
    -- send; on failure it returns None, on success it returns the hosted
    -- URL it managed to retrieve (or None when retrieval exhausts).
    let r :=
      if fallback && !env.channelAvailable then r
      else
        let r := { r with uploadSendCalls := r.uploadSendCalls + 1 }
        if env.uploadSendOk then
          let r := { r with sent := r.sent ++ [.card card true] }
          match env.hostedUrl with
          | some uploaded_url =>
            { r with ledger := (save_cached_image env.dbSaveOk guid server
                uploaded_url (some cover_url) now r.ledger).2 }
          | none => r
        else r
    -- finally: remove the scratch file.
    { r with scratchFiles := (remove_cached_file file_path r.scratchFiles).2 }

/-- The `/wonderland` command handler (src/bot/cogs/wonderland.py,
`WonderlandCog.wonderland`), over the oracle `env`, the user inputs `guid`
and `server`, the initial ledger `L`, and the clock `now`.  The branches
setting `raised := true` are the places where the source performs
optimistic attribute access on a value of the wrong shape and the
resulting `AttributeError` propagates uncaught. -/
def wonderland (env : Env) (guid server : String) (L : Ledger) (now : Nat) :
    RunResult :=
  let r0 : RunResult :=
    { raised := false, sent := [], lookupCalls := 0, downloadCalls := 0,
      uploadSendCalls := 0, deleteAttempts := [], ledger := L,
      scratchFiles := [] }
  -- Validate GUID: only numeric GUIDs are accepted.
  if !pyIsDigit guid then
    deliverMsg env false r0 (.errorCard "Invalid GUID")
  else
    -- defer, falling back to channel sends when the interaction is invalid.
    let fallback := !env.deferOk
    let r1 := { r0 with lookupCalls := 1 }
    if env.postRaises then { r1 with raised := true }
    else if env.status ≠ 200 then
      deliverMsg env fallback r1 (.errorCard "The server returned an error.")
    else
      match env.decode with
      | .jsonDecodeError =>
        deliverMsg env fallback r1
          (.errorCard "Could not decode the response from the server.")
      | .otherError => { r1 with raised := true }
      | .okNonDict =>
        -- data.get("retcode") on a non-dict body raises uncaught.
        { r1 with raised := true }
      | .ok body =>
        if body.retcode ≠ some 0 then
          deliverMsg env fallback r1
            (.errorCard (body.message.getD "Unknown error"))
        else
          match body.data_ with
          | DataField.nonDict =>
            -- .get('resp_map', {}) on a null or non-dict data member
            -- raises uncaught.
            { r1 with raised := true }
          | DataField.missing =>
            -- level_detail defaults to {}: falsy branch, no eviction.
            deliverMsg env fallback r1
              (.errorCard (pyOrStr none (body.message.getD "Level not found")))
          | DataField.dict rm =>
            match rm with
            | RespMapField.missingOrNonDict =>
              -- level_detail is again {}: falsy branch, no eviction.
              deliverMsg env fallback r1
                (.errorCard
                  (pyOrStr none (body.message.getD "Level not found")))
            | RespMapField.dict ldf =>
              match ldf with
              | LevelDetailField.missingOrFalsy =>
                -- falsy level_detail: error branch, no eviction (a falsy
                -- dict reads retcode as 0 and non-dicts fail isinstance).
                deliverMsg env fallback r1
                  (.errorCard
                    (pyOrStr none (body.message.getD "Level not found")))
              | LevelDetailField.truthyNonDict =>
                -- level_detail.get('retcode', 0) on a truthy non-dict
                -- raises uncaught.
                { r1 with raised := true }
              | LevelDetailField.dict ld =>
                if ld.retcode.getD 0 ≠ 0 || ld.data_ = none then
                  -- nested error branch; evict the cache entry when the
                  -- nested retcode is non-zero (eviction failure is caught
                  -- and logged).
                  let r2 :=
                    if ld.retcode.getD 0 ≠ 0 then
                      { r1 with
                        deleteAttempts := r1.deleteAttempts ++ [(guid, server)],
                        ledger := (delete_cached_image env.dbDeleteOk guid
                          server r1.ledger).2 }
                    else r1
                  deliverMsg env fallback r2
                    (.errorCard (pyOrStr ld.message
                      (body.message.getD "Level not found")))
                else
                  match (ld.data_.getD ⟨none⟩).level_info_val with
                  | none =>
                    deliverMsg env fallback r1
                      (.errorCard
                        "Could not find level information in the response.")
                  | some LevelInfoVal.nonDict =>
                    -- level_info.get('level_name', 'N/A') on a non-dict
                    -- level_info raises uncaught at render time.
                    { r1 with raised := true }
                  | some (LevelInfoVal.dict level_info) =>
                    if level_info.cover_img = CoverImgField.nonDict then
                      -- .get('url') on a null or non-dict cover_img raises
                      -- uncaught at render time.
                      { r1 with raised := true }
                    else
                      -- render: title, description and image slot come
                      -- from the template populated with level_info.
                      let card : Card :=
                        { title := level_info.level_name.getD "N/A",
                          description := level_info.desc.getD "N/A",
                          image := level_info.cover_img_url }
                      if truthyOpt level_info.cover_img_url then
                        let cover_url := level_info.cover_img_url.getD ""
                        let cached := get_cached_image env.dbGetOk guid
                          server r1.ledger
                        match cached with
                        | some c =>
                          if !c.image_url.isEmpty then
                            deliverMsg env fallback r1
                              (.card { card with image := some c.image_url }
                                false)
                          else
                            imageMissLeg env fallback guid server cover_url
                              now card r1
                        | none =>
                          imageMissLeg env fallback guid server cover_url
                            now card r1
                      else
                        deliverMsg env fallback r1 (.card card false)

/-- Inversion for `ApiBody.level_detail`: a dict-shaped truthy
`level_detail` pins the whole `data` path. -/
lemma level_detail_eq_some {b : ApiBody} {ld : LevelDetail}
    (h : b.level_detail = some ld) :
    b.data_
      = DataField.dict (RespMapField.dict (LevelDetailField.dict ld)) := by
  unfold ApiBody.level_detail at h
  rcases hb : b.data_ with _ | _ | rm <;> rw [hb] at h
  · simp at h
  · simp at h
  · rcases rm with _ | ldf
    · simp at h
    · rcases ldf with _ | _ | ld2
      · simp at h
      · simp at h
      · simp at h
        subst h
        rfl

/-- Inversion for `LevelDetailData.level_info`: an extracted dict
`level_info` pins the stored value. -/
lemma level_info_eq_some {d : LevelDetailData} {info : LevelInfo}
    (h : d.level_info = some info) :
    d.level_info_val = some (LevelInfoVal.dict info) := by
  unfold LevelDetailData.level_info at h
  rcases hv : d.level_info_val with _ | v <;> rw [hv] at h
  · simp at h
  · rcases v with _ | i
    · simp at h
    · simp at h
      subst h
      rfl

/-- A truthy cover URL can only come from a dict-shaped `cover_img`. -/
lemma cover_img_dict_of_truthy {info : LevelInfo}
    (h : truthyOpt info.cover_img_url = true) :
    info.cover_img ≠ CoverImgField.nonDict := by
  intro hc
  unfold LevelInfo.cover_img_url at h
  rw [hc] at h
  simp [truthyOpt] at h


/-! ## Ledger lemmas -/

lemma rowMatches_update (g' s' : String) (r : CacheRow) (u : String)
    (o : Option String) (t : Nat) :
    rowMatches g' s' { r with image_url := u, original_url := o, updated_at := t }
      = rowMatches g' s' r := rfl

lemma countKey_nil (g s : String) : countKey [] g s = 0 := rfl

lemma countKey_cons (r : CacheRow) (L : Ledger) (g s : String) :
    countKey (r :: L) g s
      = (if rowMatches g s r then 1 else 0) + countKey L g s := by
  by_cases h : rowMatches g s r <;>
    simp [countKey, List.filter_cons, h, Nat.add_comm]

lemma countKey_upsert_self (g s u : String) (o : Option String) (t : Nat)
    (L : Ledger) :
    countKey (upsertRows g s u o t L) g s = max (countKey L g s) 1 := by
  induction L with
  | nil => simp [upsertRows, countKey, List.filter, rowMatches]
  | cons r rs ih =>
    by_cases h : rowMatches g s r
    · simp only [upsertRows, if_pos h]
      rw [countKey_cons, countKey_cons, rowMatches_update, if_pos h]
      exact (Nat.max_eq_left (Nat.le_add_right 1 _)).symm
    · simp only [upsertRows, if_neg h]
      rw [countKey_cons, countKey_cons, if_neg h, ih]
      simp

lemma countKey_upsert_other (g s u : String) (o : Option String) (t : Nat)
    (g' s' : String) (h : ¬(g' = g ∧ s' = s)) (L : Ledger) :
    countKey (upsertRows g s u o t L) g' s' = countKey L g' s' := by
  induction L with
  | nil =>
    have hne : rowMatches g' s' ⟨g, s, u, o, t, t⟩ = false := by
      simp only [rowMatches, Bool.and_eq_false_iff, beq_eq_false_iff_ne,
        ne_eq]
      by_cases hg : g = g'
      · right; intro hs; exact h ⟨hg.symm, hs.symm⟩
      · left; exact hg
    simp [upsertRows, countKey_cons, countKey_nil, hne]
  | cons r rs ih =>
    by_cases hm : rowMatches g s r
    · simp only [upsertRows, if_pos hm]
      rw [countKey_cons, countKey_cons, rowMatches_update]
    · simp only [upsertRows, if_neg hm]
      rw [countKey_cons, countKey_cons, ih]

lemma upsert_match_fields (g s u : String) (o : Option String) (t : Nat) :
    ∀ L : Ledger, countKey L g s ≤ 1 →
      ∀ r ∈ upsertRows g s u o t L, rowMatches g s r = true →
        r.image_url = u ∧ r.original_url = o ∧ r.updated_at = t := by
  intro L
  induction L with
  | nil =>
    intro _ r hr _
    simp [upsertRows] at hr
    subst hr
    exact ⟨rfl, rfl, rfl⟩
  | cons r0 rs ih =>
    intro hcnt r hr hm
    by_cases hm0 : rowMatches g s r0
    · simp only [upsertRows] at hr
      rw [if_pos hm0] at hr
      rcases List.mem_cons.mp hr with hr1 | hr2
      · subst hr1; exact ⟨rfl, rfl, rfl⟩
      · exfalso
        have hc := countKey_cons r0 rs g s
        rw [if_pos hm0] at hc
        have hmem : r ∈ rs.filter (rowMatches g s) :=
          List.mem_filter.mpr ⟨hr2, hm⟩
        have hpos : 0 < countKey rs g s := by
          unfold countKey
          exact List.length_pos.mpr (List.ne_nil_of_mem hmem)
        omega
    · simp only [upsertRows] at hr
      rw [if_neg hm0] at hr
      rcases List.mem_cons.mp hr with hr1 | hr2
      · exact absurd (hr1 ▸ hm) hm0
      · have hc := countKey_cons r0 rs g s
        rw [if_neg hm0] at hc
        exact ih (by omega) r hr2 hm

lemma save_true_eq (g s url : String) (o : Option String) (t : Nat)
    (L : Ledger) :
    (save_cached_image true g s url o t L).2 = upsertRows g s url o t L :=
  rfl

/-- Claim C7: the ledger keeps at most one CacheEntry per (levelId, region)
key; upserting twice with the same key and URL leaves exactly one entry
carrying that URL, and upserting with a different URL updates
`hostedImageUrl`, `originalSourceUrl` and `updatedAt` of that single
entry. -/
theorem C7_ledger_single_row (L : Ledger) (g s u1 u2 : String)
    (o1 o2 : Option String) (t1 t2 t3 : Nat) (hinv : atMostOne L) :
    atMostOne (save_cached_image true g s u1 o1 t1 L).2 ∧
    (countKey (save_cached_image true g s u1 o1 t2
        (save_cached_image true g s u1 o1 t1 L).2).2 g s = 1 ∧
      ∀ r ∈ (save_cached_image true g s u1 o1 t2
          (save_cached_image true g s u1 o1 t1 L).2).2,
        rowMatches g s r = true → r.image_url = u1 ∧ r.updated_at = t2) ∧
    (countKey (save_cached_image true g s u2 o2 t3
        (save_cached_image true g s u1 o1 t1 L).2).2 g s = 1 ∧
      ∀ r ∈ (save_cached_image true g s u2 o2 t3
          (save_cached_image true g s u1 o1 t1 L).2).2,
        rowMatches g s r = true →
          r.image_url = u2 ∧ r.original_url = o2 ∧ r.updated_at = t3) := by
  have h1 : countKey L g s ≤ 1 := hinv g s
  have hL1 : countKey (upsertRows g s u1 o1 t1 L) g s = 1 := by
    rw [countKey_upsert_self]
    exact Nat.max_eq_right h1
  refine ⟨?_, ⟨?_, ?_⟩, ⟨?_, ?_⟩⟩
  · intro g' s'
    rw [save_true_eq]
    by_cases hk : g' = g ∧ s' = s
    · obtain ⟨hg, hs'⟩ := hk
      subst hg; subst hs'
      rw [countKey_upsert_self]
      exact Nat.max_le.mpr ⟨hinv g' s', le_refl 1⟩
    · rw [countKey_upsert_other g s u1 o1 t1 g' s' hk]
      exact hinv g' s'
  · rw [save_true_eq, save_true_eq, countKey_upsert_self, hL1]
    exact Nat.max_self 1
  · rw [save_true_eq, save_true_eq]
    intro r hr hm
    have h := upsert_match_fields g s u1 o1 t2 _ (le_of_eq hL1) r hr hm
    exact ⟨h.1, h.2.2⟩
  · rw [save_true_eq, save_true_eq, countKey_upsert_self, hL1]
    exact Nat.max_self 1
  · rw [save_true_eq, save_true_eq]
    intro r hr hm
    exact upsert_match_fields g s u2 o2 t3 _ (le_of_eq hL1) r hr hm

/-- Witness for C7: the ledger theorem applied to the empty ledger with key
("12345", "os_asia"). -/
theorem C7_ledger_single_row_witness :
    atMostOne (save_cached_image true "12345" "os_asia" "u1" none 1 []).2 ∧
    (countKey (save_cached_image true "12345" "os_asia" "u1" none 2
        (save_cached_image true "12345" "os_asia" "u1" none 1 []).2).2
        "12345" "os_asia" = 1 ∧
      ∀ r ∈ (save_cached_image true "12345" "os_asia" "u1" none 2
          (save_cached_image true "12345" "os_asia" "u1" none 1 []).2).2,
        rowMatches "12345" "os_asia" r = true →
          r.image_url = "u1" ∧ r.updated_at = 2) ∧
    (countKey (save_cached_image true "12345" "os_asia" "u2" (some "o2") 3
        (save_cached_image true "12345" "os_asia" "u1" none 1 []).2).2
        "12345" "os_asia" = 1 ∧
      ∀ r ∈ (save_cached_image true "12345" "os_asia" "u2" (some "o2") 3
          (save_cached_image true "12345" "os_asia" "u1" none 1 []).2).2,
        rowMatches "12345" "os_asia" r = true →
          r.image_url = "u2" ∧ r.original_url = some "o2" ∧
            r.updated_at = 3) :=
  C7_ledger_single_row [] "12345" "os_asia" "u1" "u2" none (some "o2") 1 2 3
    (fun _ _ => Nat.zero_le 1)

lemma cleanup_old_cache_files_eq (now ma : Nat) (dir : List FsEntry) :
    cleanup_old_cache_files now ma dir
      = ((dir.filter (sweepDoomed now ma)).length,
         dir.filter (fun e => !sweepDoomed now ma e)) := by
  induction dir with
  | nil => rfl
  | cons e es ih =>
    simp only [cleanup_old_cache_files, ih, List.filter_cons]
    by_cases h : sweepDoomed now ma e <;> simp [h]

lemma filter_length_split {α : Type} (p : α → Bool) (l : List α) :
    (l.filter p).length + (l.filter (fun a => !p a)).length = l.length := by
  induction l with
  | nil => rfl
  | cons a l ih => by_cases h : p a <;> simp [List.filter_cons, h] <;> omega

/-- Claim C8: `sweep(dir, maxAgeSeconds)` scans the content-store directory
non-recursively (the directory is its flat listing), deletes exactly the
regular files whose modification time exceeds the age threshold, and returns
the count of deleted files; and the periodic cleanup task invokes it on the
`.cache` directory with a 3600-second threshold. -/
theorem C8_sweeper_deletes_old_regular_files (now max_age_seconds : Nat)
    (dir : List FsEntry) :
    (cleanup_old_cache_files now max_age_seconds dir).2
        = dir.filter (fun e => !sweepDoomed now max_age_seconds e) ∧
    (cleanup_old_cache_files now max_age_seconds dir).1
        = (dir.filter (sweepDoomed now max_age_seconds)).length ∧
    (cleanup_old_cache_files now max_age_seconds dir).1
        + (cleanup_old_cache_files now max_age_seconds dir).2.length
        = dir.length ∧
    periodic_cache_cleanup now dir = cleanup_old_cache_files now 3600 dir ∧
    periodic_cleanup_cache_dir = ".cache" := by
  refine ⟨?_, ?_, ?_, rfl, rfl⟩
  · rw [cleanup_old_cache_files_eq]
  · rw [cleanup_old_cache_files_eq]
  · rw [cleanup_old_cache_files_eq]
    exact filter_length_split (sweepDoomed now max_age_seconds) dir

/-- Claim C9 (code bug): scratch filenames are not per-invocation unique.
`_make_filename` stamps the name with `int(time.time())`, which has whole-
second resolution, so two concurrent invocations for the same
(levelId, region) key that run in the same second produce the same filename,
whatever their other per-invocation data (here: two different uuid oracles,
unused on this branch). -/
theorem C9_filename_collision_same_second :
    make_filename (some "12345") (some "os_asia") 1700000000 "aaaa1111" "png"
        = "12345_os_asia_1700000000.png" ∧
    make_filename (some "12345") (some "os_asia") 1700000000 "bbbb2222" "png"
        = "12345_os_asia_1700000000.png" := by
  constructor <;> decide

/-- Claim C10: when `download_image` fails — non-200 status or empty body —
it raises before any file is written, so the content store is unchanged on
every failing call; a file is created exactly on the success path, which
returns its path. -/
theorem C10_download_writes_only_on_success (status : Nat)
    (content : List UInt8) (sniffed content_type guid server : Option String)
    (timestamp : Nat) (uuidHex cache_dir : String) :
    (status ≠ 200 →
      download_image status content sniffed content_type guid server
          timestamp uuidHex cache_dir
        = (.error (.httpError status), [])) ∧
    (status = 200 → content.isEmpty = true →
      download_image status content sniffed content_type guid server
          timestamp uuidHex cache_dir
        = (.error .emptyContent, [])) ∧
    (status = 200 → content.isEmpty = false →
      ∃ p, download_image status content sniffed content_type guid server
          timestamp uuidHex cache_dir
        = (.ok p, [p])) := by
  refine ⟨fun h => ?_, fun h he => ?_, fun h he => ?_⟩
  · simp [download_image, h]
  · simp [download_image, h, he]
  · refine ⟨cache_dir ++ "/" ++ make_filename guid server timestamp uuidHex
      (guess_extension_from_content sniffed content_type), ?_⟩
    simp [download_image, h, he]

/-- Witness for C10: a 500 response writes nothing, and a 200 response with
a one-byte body writes exactly the file whose path is returned. -/
theorem C10_download_writes_only_on_success_witness :
    download_image 500 [] none none none none 7 "u" ".cache"
        = (.error (.httpError 500), []) ∧
    ∃ p, download_image 200 [37] none none (some "12345") (some "os_asia")
        7 "u" ".cache" = (.ok p, [p]) :=
  ⟨(C10_download_writes_only_on_success 500 [] none none none none 7 "u"
      ".cache").1 (by decide),
   (C10_download_writes_only_on_success 200 [37] none none (some "12345")
      (some "os_asia") 7 "u" ".cache").2.2 rfl (by decide)⟩

/-! ## Delivery lemmas -/

lemma deliverMsg_raised (env : Env) (fb : Bool) (r : RunResult)
    (m : Delivered) (h : env.sendRaises = false) :
    (deliverMsg env fb r m).raised = r.raised := by
  unfold deliverMsg
  split <;> (try split) <;> (try split) <;> simp_all

lemma deliverMsg_sent_direct (env : Env) (r : RunResult) (m : Delivered)
    (h : env.sendRaises = false) :
    (deliverMsg env false r m).sent = r.sent ++ [m] := by
  simp [deliverMsg, h]

lemma deliverMsg_sent_le (env : Env) (fb : Bool) (r : RunResult)
    (m : Delivered) :
    (deliverMsg env fb r m).sent.length ≤ r.sent.length + 1 := by
  unfold deliverMsg
  split <;> (try split) <;> (try split) <;> simp

lemma deliverMsg_lookupCalls (env : Env) (fb : Bool) (r : RunResult)
    (m : Delivered) :
    (deliverMsg env fb r m).lookupCalls = r.lookupCalls := by
  unfold deliverMsg
  split <;> (try split) <;> (try split) <;> rfl

lemma deliverMsg_downloadCalls (env : Env) (fb : Bool) (r : RunResult)
    (m : Delivered) :
    (deliverMsg env fb r m).downloadCalls = r.downloadCalls := by
  unfold deliverMsg
  split <;> (try split) <;> (try split) <;> rfl

lemma deliverMsg_uploadSendCalls (env : Env) (fb : Bool) (r : RunResult)
    (m : Delivered) :
    (deliverMsg env fb r m).uploadSendCalls = r.uploadSendCalls := by
  unfold deliverMsg
  split <;> (try split) <;> (try split) <;> rfl

lemma deliverMsg_deleteAttempts (env : Env) (fb : Bool) (r : RunResult)
    (m : Delivered) :
    (deliverMsg env fb r m).deleteAttempts = r.deleteAttempts := by
  unfold deliverMsg
  split <;> (try split) <;> (try split) <;> rfl

lemma deliverMsg_ledger (env : Env) (fb : Bool) (r : RunResult)
    (m : Delivered) :
    (deliverMsg env fb r m).ledger = r.ledger := by
  unfold deliverMsg
  split <;> (try split) <;> (try split) <;> rfl

lemma imageMissLeg_raised (env : Env) (fb : Bool) (g s c : String)
    (now : Nat) (card : Card) (r : RunResult) (h : env.sendRaises = false) :
    (imageMissLeg env fb g s c now card r).raised = r.raised := by
  unfold imageMissLeg
  cases hd : env.downloadResult with
  | none =>
    have := deliverMsg_raised env fb
      { r with downloadCalls := r.downloadCalls + 1 } (.card card false) h
    simpa using this
  | some p =>
    by_cases hc : fb && !env.channelAvailable <;>
      by_cases hu : env.uploadSendOk <;>
        cases env.hostedUrl <;> simp [hc, hu]

lemma imageMissLeg_sent_le (env : Env) (fb : Bool) (g s c : String)
    (now : Nat) (card : Card) (r : RunResult) :
    (imageMissLeg env fb g s c now card r).sent.length
      ≤ r.sent.length + 1 := by
  unfold imageMissLeg
  cases hd : env.downloadResult with
  | none =>
    have := deliverMsg_sent_le env fb
      { r with downloadCalls := r.downloadCalls + 1 } (.card card false)
    simpa using this
  | some p =>
    by_cases hc : fb && !env.channelAvailable <;>
      by_cases hu : env.uploadSendOk <;>
        cases env.hostedUrl <;> simp [hc, hu]

lemma imageMissLeg_sent_exact (env : Env) (g s c : String)
    (now : Nat) (card : Card) (r : RunResult) (h : env.sendRaises = false)
    (hu : env.uploadSendOk = true) :
    (imageMissLeg env false g s c now card r).sent.length
      = r.sent.length + 1 := by
  unfold imageMissLeg
  cases hd : env.downloadResult with
  | none =>
    have := deliverMsg_sent_direct env
      { r with downloadCalls := r.downloadCalls + 1 } (.card card false) h
    simp [this]
  | some p => cases env.hostedUrl <;> simp [hu]

/-! ## Concrete fixtures for witnesses and counterexamples -/

/-- A successful `level_info` payload with a cover image. -/
def sampleInfo : LevelInfo :=
  { level_name := some "Lvl", desc := some "D",
    cover_img := CoverImgField.dict (some "https://img.example/cover.png"),
    level_id := some "12345" }

/-- A fully successful response envelope carrying `sampleInfo`. -/
def sampleDetail : LevelDetail :=
  { retcode := some 0, message := none,
    data_ := some { level_info_val := some (LevelInfoVal.dict sampleInfo) } }

/-- A fully successful response envelope carrying `sampleInfo`. -/
def sampleBody : ApiBody :=
  { retcode := some 0, message := none,
    data_ := DataField.dict (RespMapField.dict
      (LevelDetailField.dict sampleDetail)) }

/-- An environment in which every external effect succeeds. -/
def happyEnv : Env :=
  { deferOk := true, postRaises := false, status := 200,
    decode := .ok sampleBody,
    dbGetOk := true, dbSaveOk := true, dbDeleteOk := true,
    downloadResult := some "12345_os_asia_777.png",
    uploadSendOk := true, hostedUrl := some "https://cdn.example/h.png",
    channelAvailable := true, sendRaises := false }

/-- A pre-existing ledger row for ("12345", "os_asia"). -/
def hitRow : CacheRow :=
  { guid := "12345", server := "os_asia",
    image_url := "https://cdn.example/x.png", original_url := none,
    created_at := 1, updated_at := 1 }

/-! ## Claim C1 -/

/-- Claim C1: when the lookup succeeds with a cover image URL and the ledger
already holds an entry for (levelId, region) with a non-empty
hostedImageUrl (and the ledger read itself succeeds), the pipeline performs
no image download and no upload, and the image reference of the delivered
card is exactly the ledger entry's hostedImageUrl. -/
theorem C1_cache_hit_uses_ledger_url (env : Env) (guid server : String)
    (L : Ledger) (now : Nat) (body : ApiBody) (ld : LevelDetail)
    (dd : LevelDetailData) (info : LevelInfo) (row : CacheRow)
    (hvalid : pyIsDigit guid = true)
    (hdefer : env.deferOk = true)
    (hpost : env.postRaises = false)
    (hstatus : env.status = 200)
    (hdec : env.decode = DecodeOutcome.ok body)
    (hret : body.retcode = some 0)
    (hld : body.level_detail = some ld)
    (hldret : ld.retcode = some 0)
    (hdata : ld.data_ = some dd)
    (hinfo : dd.level_info = some info)
    (hcov : truthyOpt info.cover_img_url = true)
    (hget : env.dbGetOk = true)
    (hrow : findRow L guid server = some row)
    (hurl : row.image_url ≠ "")
    (hsend : env.sendRaises = false) :
    (wonderland env guid server L now).downloadCalls = 0 ∧
    (wonderland env guid server L now).uploadSendCalls = 0 ∧
    (wonderland env guid server L now).sent
      = [Delivered.card { title := info.level_name.getD "N/A", description := info.desc.getD "N/A", image := some row.image_url } false] := by
  have hne : row.image_url.isEmpty = false := by
    cases hb : row.image_url.isEmpty with
    | false => rfl
    | true => exact absurd ((String.isEmpty_iff _).mp hb) hurl
  have hbd := level_detail_eq_some hld
  have hiv := level_info_eq_some hinfo
  have hcd := cover_img_dict_of_truthy hcov
  simp [wonderland, hvalid, hdefer, hpost, hstatus, hdec, hret, hbd, hldret,
    hdata, hiv, hcd, hcov, hget, get_cached_image, hrow, hne,
    deliverMsg_sent_direct _ _ _ hsend, deliverMsg_downloadCalls,
    deliverMsg_uploadSendCalls]

/-- Witness for C1: the cache-hit theorem applied to the happy-path fixture
with the pre-existing ledger row. -/
theorem C1_cache_hit_uses_ledger_url_witness :
    (wonderland happyEnv "12345" "os_asia" [hitRow] 0).downloadCalls = 0 ∧
    (wonderland happyEnv "12345" "os_asia" [hitRow] 0).uploadSendCalls = 0 ∧
    (wonderland happyEnv "12345" "os_asia" [hitRow] 0).sent
      = [Delivered.card { title := sampleInfo.level_name.getD "N/A", description := sampleInfo.desc.getD "N/A", image := some hitRow.image_url } false] :=
  C1_cache_hit_uses_ledger_url happyEnv "12345" "os_asia" [hitRow] 0
    sampleBody sampleDetail
    { level_info_val := some (LevelInfoVal.dict sampleInfo) }
    sampleInfo hitRow
    (by decide) rfl rfl rfl rfl rfl rfl rfl rfl rfl (by decide) rfl
    (by decide) (by decide) rfl

/-! ## Claim C2 -/

lemma C2_leafD (env : Env) (fb : Bool) (r : RunResult) (m : Delivered)
    (hsend : env.sendRaises = false) (hr : r.raised = false)
    (hs : r.sent = []) (hfb : env.deferOk = true → fb = false) :
    (deliverMsg env fb r m).raised = false ∧
    (deliverMsg env fb r m).sent.length ≤ 1 ∧
    (env.deferOk = true → env.uploadSendOk = true →
      (deliverMsg env fb r m).sent.length = 1) := by
  refine ⟨?_, ?_, ?_⟩
  · rw [deliverMsg_raised _ _ _ _ hsend]; exact hr
  · have h := deliverMsg_sent_le env fb r m
    rw [hs] at h
    simpa using h
  · intro hd _
    rw [hfb hd, deliverMsg_sent_direct _ _ _ hsend, hs]
    rfl

lemma C2_leafM (env : Env) (fb : Bool) (g s c : String) (now : Nat)
    (card : Card) (r : RunResult)
    (hsend : env.sendRaises = false) (hr : r.raised = false)
    (hs : r.sent = []) (hfb : env.deferOk = true → fb = false) :
    (imageMissLeg env fb g s c now card r).raised = false ∧
    (imageMissLeg env fb g s c now card r).sent.length ≤ 1 ∧
    (env.deferOk = true → env.uploadSendOk = true →
      (imageMissLeg env fb g s c now card r).sent.length = 1) := by
  refine ⟨?_, ?_, ?_⟩
  · rw [imageMissLeg_raised _ _ _ _ _ _ _ _ hsend]; exact hr
  · have h := imageMissLeg_sent_le env fb g s c now card r
    rw [hs] at h
    simpa using h
  · intro hd hu
    rw [hfb hd, imageMissLeg_sent_exact _ _ _ _ _ _ _ hsend hu, hs]
    rfl

/-- Claim C2 (counterexample): the handler is not exception-free — when the
lookup POST itself raises (a connection-level failure, which the code does
not catch), the exception escapes and nothing is delivered. -/
theorem C2_counterexample_post_raises :
    (wonderland { happyEnv with postRaises := true } "12345" "os_asia" [] 0).raised
        = true ∧
    (wonderland { happyEnv with postRaises := true } "12345" "os_asia" [] 0).sent
        = [] := by
  constructor <;> rfl

/-- Whether the decoded response (if any) is dict-shaped at every point the
code reads it with attribute access: the body itself, `data['data']` (when
present), a truthy `level_detail`, an extracted `level_info`, and a present
`cover_img`.  The shapes this rejects are exactly the ones on which
`wonderland` raises an uncaught `AttributeError`
(wonderland.py lines 89, 104, 108, 155 and 157). -/
def envelopeDictShaped : DecodeOutcome → Bool
  | DecodeOutcome.okNonDict => false
  | DecodeOutcome.jsonDecodeError => true
  | DecodeOutcome.otherError => true
  | DecodeOutcome.ok body =>
    match body.data_ with
    | DataField.nonDict => false
    | DataField.missing => true
    | DataField.dict RespMapField.missingOrNonDict => true
    | DataField.dict (RespMapField.dict LevelDetailField.missingOrFalsy) =>
      true
    | DataField.dict (RespMapField.dict LevelDetailField.truthyNonDict) =>
      false
    | DataField.dict (RespMapField.dict (LevelDetailField.dict ld)) =>
      match ld.data_ with
      | none => true
      | some dd =>
        match dd.level_info_val with
        | none => true
        | some LevelInfoVal.nonDict => false
        | some (LevelInfoVal.dict info) =>
          match info.cover_img with
          | CoverImgField.nonDict => false
          | _ => true

/-- Claim C2 as amended: provided the lookup POST itself does not raise, a
body-decode failure is of the caught `json.JSONDecodeError` kind, the
direct platform sends do not raise, and the decoded envelope is dict-shaped
at every point the code reads it with attribute access, the handler never
raises; it delivers at most one message, and — when the original
interaction handle is valid (defer succeeded) and the upload send succeeds
— exactly one message, which is by construction either an error card or
the rendered card with or without an image.  Conversely, a successfully
decoded body that is not a dict makes the handler raise (an uncaught
`AttributeError` at the first `.get`). -/
theorem C2_amended_never_raises :
    (∀ (env : Env) (guid server : String) (L : Ledger) (now : Nat),
      env.postRaises = false → env.decode ≠ DecodeOutcome.otherError →
      env.sendRaises = false → envelopeDictShaped env.decode = true →
      (wonderland env guid server L now).raised = false ∧
      (wonderland env guid server L now).sent.length ≤ 1 ∧
      (env.deferOk = true → env.uploadSendOk = true →
        (wonderland env guid server L now).sent.length = 1)) ∧
    (∀ (env : Env) (guid server : String) (L : Ledger) (now : Nat),
      pyIsDigit guid = true → env.postRaises = false →
      env.status = 200 → env.decode = DecodeOutcome.okNonDict →
      (wonderland env guid server L now).raised = true) := by
  constructor
  · intro env guid server L now hpost hdec hsend hshape
    have hfb : env.deferOk = true → (!env.deferOk) = false := by
      intro hd; rw [hd]; rfl
    cases hv : pyIsDigit guid with
    | false =>
      simp only [wonderland, hv]
      exact C2_leafD env false _ _ hsend rfl rfl (fun _ => rfl)
    | true =>
      cases hdc : env.decode with
      | otherError => exact absurd hdc hdec
      | okNonDict =>
        rw [hdc] at hshape
        exact absurd hshape (by decide)
      | jsonDecodeError =>
        by_cases hst : env.status = 200
        · simp only [wonderland, hv, hpost, hst, hdc]
          simp
          exact C2_leafD env (!env.deferOk) _ _ hsend rfl rfl hfb
        · simp only [wonderland, hv, hpost]
          simp [hst]
          exact C2_leafD env (!env.deferOk) _ _ hsend rfl rfl hfb
      | ok body =>
        rw [hdc] at hshape
        by_cases hst : env.status = 200
        case neg =>
          simp only [wonderland, hv, hpost]
          simp [hst]
          exact C2_leafD env (!env.deferOk) _ _ hsend rfl rfl hfb
        case pos =>
        by_cases hbr : body.retcode = some 0
        case neg =>
          simp only [wonderland, hv, hpost, hst, hdc]
          simp [hbr]
          exact C2_leafD env (!env.deferOk) _ _ hsend rfl rfl hfb
        case pos =>
        cases hbd : body.data_ with
        | nonDict => simp [envelopeDictShaped, hbd] at hshape
        | missing =>
          simp only [wonderland, hv, hpost, hst, hdc, hbd]
          simp [hbr]
          exact C2_leafD env (!env.deferOk) _ _ hsend rfl rfl hfb
        | dict rm =>
          rcases rm with _ | ldf
          · simp only [wonderland, hv, hpost, hst, hdc, hbd]
            simp [hbr]
            exact C2_leafD env (!env.deferOk) _ _ hsend rfl rfl hfb
          · rcases ldf with _ | _ | ld
            · simp only [wonderland, hv, hpost, hst, hdc, hbd]
              simp [hbr]
              exact C2_leafD env (!env.deferOk) _ _ hsend rfl rfl hfb
            · simp [envelopeDictShaped, hbd] at hshape
            · by_cases hlr : ld.retcode.getD 0 = 0
              case neg =>
                simp only [wonderland, hv, hpost, hst, hdc, hbd]
                simp [hbr, hlr]
                exact C2_leafD env (!env.deferOk) _ _ hsend rfl rfl hfb
              case pos =>
              cases hdd : ld.data_ with
              | none =>
                simp only [wonderland, hv, hpost, hst, hdc, hbd]
                simp [hbr, hlr, hdd]
                exact C2_leafD env (!env.deferOk) _ _ hsend rfl rfl hfb
              | some dd =>
                cases hin : dd.level_info_val with
                | none =>
                  simp only [wonderland, hv, hpost, hst, hdc, hbd]
                  simp [hbr, hlr, hdd, hin]
                  exact C2_leafD env (!env.deferOk) _ _ hsend rfl rfl hfb
                | some v =>
                  rcases v with _ | info
                  · simp [envelopeDictShaped, hbd, hdd, hin] at hshape
                  · by_cases hcn : info.cover_img = CoverImgField.nonDict
                    case pos =>
                      simp [envelopeDictShaped, hbd, hdd, hin, hcn] at hshape
                    case neg =>
                    by_cases hcv : truthyOpt info.cover_img_url
                    case neg =>
                      simp only [wonderland, hv, hpost, hst, hdc, hbd]
                      simp [hbr, hlr, hdd, hin, hcn, hcv]
                      exact C2_leafD env (!env.deferOk) _ _ hsend rfl rfl hfb
                    case pos =>
                    cases hdb : env.dbGetOk with
                    | false =>
                      simp only [wonderland, hv, hpost, hst, hdc, hbd]
                      simp [hbr, hlr, hdd, hin, hcn, hcv, get_cached_image,
                        hdb]
                      exact C2_leafM env (!env.deferOk) _ _ _ _ _ _ hsend
                        rfl rfl hfb
                    | true =>
                      cases hfr : findRow L guid server with
                      | none =>
                        simp only [wonderland, hv, hpost, hst, hdc, hbd]
                        simp [hbr, hlr, hdd, hin, hcn, hcv,
                          get_cached_image, hdb, hfr]
                        exact C2_leafM env (!env.deferOk) _ _ _ _ _ _ hsend
                          rfl rfl hfb
                      | some row =>
                        cases hru : row.image_url.isEmpty with
                        | false =>
                          simp only [wonderland, hv, hpost, hst, hdc, hbd]
                          simp [hbr, hlr, hdd, hin, hcn, hcv,
                            get_cached_image, hdb, hfr, hru]
                          exact C2_leafD env (!env.deferOk) _ _ hsend rfl
                            rfl hfb
                        | true =>
                          simp only [wonderland, hv, hpost, hst, hdc, hbd]
                          simp [hbr, hlr, hdd, hin, hcn, hcv,
                            get_cached_image, hdb, hfr, hru]
                          exact C2_leafM env (!env.deferOk) _ _ _ _ _ _
                            hsend rfl rfl hfb
  · intro env guid server L now hv hpost hst hdc
    simp [wonderland, hv, hpost, hst, hdc]

/-- Environment whose lookup response decodes to a non-dict JSON value
(array, string, number or null). -/
def nonDictBodyEnv : Env :=
  { happyEnv with decode := DecodeOutcome.okNonDict }

/-- Witness for C2's amended theorem: the happy-path environment delivers
exactly one message and raises nothing, and a non-dict decoded body makes
the handler raise. -/
theorem C2_amended_never_raises_witness :
    ((wonderland happyEnv "12345" "os_asia" [] 0).raised = false ∧
     (wonderland happyEnv "12345" "os_asia" [] 0).sent.length ≤ 1 ∧
     (happyEnv.deferOk = true → happyEnv.uploadSendOk = true →
       (wonderland happyEnv "12345" "os_asia" [] 0).sent.length = 1)) ∧
    (wonderland nonDictBodyEnv "12345" "os_asia" [] 0).raised = true :=
  ⟨C2_amended_never_raises.1 happyEnv "12345" "os_asia" [] 0 rfl (by decide)
      rfl (by decide),
   C2_amended_never_raises.2 nonDictBodyEnv "12345" "os_asia" [] 0
      (by decide) rfl rfl rfl⟩

/-! ## Claim C3 -/

/-- U+00B2 SUPERSCRIPT TWO, a character Python's `str.isdigit` accepts but
the regular expression `^[0-9]+$` rejects. -/
def supTwo : String := String.mk [Char.ofNat 178]

/-- Claim C3 (counterexample): validation is `guid.isdigit()`, not the
regular expression `^[0-9]+$`.  The one-character input U+00B2 fails the
regular expression, yet it passes validation, the lookup POST is issued
(one network call, not zero) and no "Invalid GUID" error card is sent. -/
theorem C3_counterexample_superscript_two :
    matchesNumRegex supTwo = false ∧ pyIsDigit supTwo = true ∧
    (wonderland happyEnv supTwo "os_asia" [] 0).lookupCalls = 1 ∧
    (wonderland happyEnv supTwo "os_asia" [] 0).sent
        ≠ [Delivered.errorCard "Invalid GUID"] := by
  refine ⟨by decide, by decide, rfl, by decide⟩

/-- Claim C3 as amended: validation passes exactly when Python's
`str.isdigit` accepts the input (non-empty, all characters Unicode digits).
Every input `isdigit` rejects gets the "Invalid GUID" error card with zero
network calls, and every string matching `^[0-9]+$` passes validation —
but the converse fails, since `isdigit` also accepts non-ASCII digits. -/
theorem C3_amended_validation_isdigit :
    (∀ (env : Env) (guid server : String) (L : Ledger) (now : Nat),
      pyIsDigit guid = false →
        (wonderland env guid server L now).lookupCalls = 0 ∧
        (wonderland env guid server L now).downloadCalls = 0 ∧
        (wonderland env guid server L now).uploadSendCalls = 0 ∧
        (env.sendRaises = false →
          (wonderland env guid server L now).sent
            = [Delivered.errorCard "Invalid GUID"])) ∧
    (∀ s : String, matchesNumRegex s = true → pyIsDigit s = true) := by
  constructor
  · intro env guid server L now h
    simp only [wonderland, h]
    simp only [Bool.not_false, if_pos]
    refine ⟨deliverMsg_lookupCalls _ _ _ _, deliverMsg_downloadCalls _ _ _ _,
      deliverMsg_uploadSendCalls _ _ _ _, fun hs => ?_⟩
    rw [deliverMsg_sent_direct _ _ _ hs]
    rfl
  · intro s h
    unfold matchesNumRegex at h
    unfold pyIsDigit
    rw [Bool.and_eq_true] at h ⊢
    rcases h with ⟨h1, h2⟩
    refine ⟨h1, ?_⟩
    rw [List.all_eq_true] at h2 ⊢
    intro c hc
    have hd := h2 c hc
    unfold pyIsDigitChar
    simp only [Bool.or_eq_true]
    exact Or.inl (Or.inl (Or.inl (Or.inl (Or.inl hd))))

/-- Witness for C3's amended theorem: "abc" is rejected with zero lookups,
and the ASCII digit "7" passes validation. -/
theorem C3_amended_validation_isdigit_witness :
    (wonderland happyEnv "abc" "os_asia" [] 0).lookupCalls = 0 ∧
    pyIsDigit "7" = true :=
  ⟨(C3_amended_validation_isdigit.1 happyEnv "abc" "os_asia" [] 0
      (by decide)).1,
   C3_amended_validation_isdigit.2 "7" (by decide)⟩

/-! ## Claim C4 -/

lemma findRow_after_full_delete (g s : String) (L : Ledger) :
    findRow (L.filter fun r => !(rowMatches g s r)) g s = none := by
  rw [findRow, List.find?_eq_none]
  intro x hx hpx
  have hm := (List.mem_filter.mp hx).2
  rw [hpx] at hm
  exact absurd hm (by decide)

/-- Claim C4: on a lookup failing with an invalid-level error (nested
`level_detail.retcode` non-zero), the pipeline attempts
`ledger.delete(levelId, region)`, delivers the error card even if the
eviction fails, and — when the delete operation itself succeeds — leaves the
ledger with no entry for that key. -/
theorem C4_invalid_level_evicts (env : Env) (guid server : String)
    (L : Ledger) (now : Nat) (body : ApiBody) (ld : LevelDetail)
    (hvalid : pyIsDigit guid = true)
    (hpost : env.postRaises = false)
    (hstatus : env.status = 200)
    (hdec : env.decode = DecodeOutcome.ok body)
    (hret : body.retcode = some 0)
    (hld : body.level_detail = some ld)
    (hbad : ld.retcode.getD 0 ≠ 0) :
    (wonderland env guid server L now).deleteAttempts = [(guid, server)] ∧
    (env.sendRaises = false → env.deferOk = true →
      (wonderland env guid server L now).sent
        = [Delivered.errorCard
            (pyOrStr ld.message (body.message.getD "Level not found"))]) ∧
    (env.dbDeleteOk = true →
      findRow (wonderland env guid server L now).ledger guid server
        = none) := by
  have hbd := level_detail_eq_some hld
  have hw : wonderland env guid server L now
      = deliverMsg env (!env.deferOk)
          { raised := false, sent := [], lookupCalls := 1,
            downloadCalls := 0, uploadSendCalls := 0,
            deleteAttempts := [(guid, server)],
            ledger := (delete_cached_image env.dbDeleteOk guid server L).2,
            scratchFiles := [] }
          (.errorCard
            (pyOrStr ld.message (body.message.getD "Level not found"))) := by
    simp [wonderland, hvalid, hpost, hstatus, hdec, hret, hbd, hbad]
  refine ⟨?_, ?_, ?_⟩
  · rw [hw, deliverMsg_deleteAttempts]
  · intro hsend hdefer
    rw [hw, hdefer]
    simp only [Bool.not_true]
    rw [deliverMsg_sent_direct _ _ _ hsend]
    rfl
  · intro hdel
    rw [hw, deliverMsg_ledger, hdel]
    exact findRow_after_full_delete guid server L

/-- The invalid-level response fixture: top-level success, nested
`level_detail` error with no data. -/
def invalidLevelDetail : LevelDetail :=
  { retcode := some (-1), message := some "Level does not exist",
    data_ := none }

/-- Envelope carrying `invalidLevelDetail`. -/
def invalidLevelBody : ApiBody :=
  { retcode := some 0, message := some "top",
    data_ := DataField.dict (RespMapField.dict
      (LevelDetailField.dict invalidLevelDetail)) }

/-- Environment whose lookup yields the invalid-level response. -/
def invalidLevelEnv : Env := { happyEnv with decode := .ok invalidLevelBody }

/-- Witness for C4: the eviction theorem on an existing cache entry for
("12345", "os_asia"). -/
theorem C4_invalid_level_evicts_witness :
    (wonderland invalidLevelEnv "12345" "os_asia" [hitRow] 0).deleteAttempts
        = [("12345", "os_asia")] ∧
    (invalidLevelEnv.sendRaises = false → invalidLevelEnv.deferOk = true →
      (wonderland invalidLevelEnv "12345" "os_asia" [hitRow] 0).sent
        = [Delivered.errorCard
            (pyOrStr invalidLevelDetail.message
              (invalidLevelBody.message.getD "Level not found"))]) ∧
    (invalidLevelEnv.dbDeleteOk = true →
      findRow (wonderland invalidLevelEnv "12345" "os_asia" [hitRow] 0).ledger
        "12345" "os_asia" = none) :=
  C4_invalid_level_evicts invalidLevelEnv "12345" "os_asia" [hitRow] 0
    invalidLevelBody invalidLevelDetail (by decide) rfl rfl rfl rfl rfl
    (by decide)

/-! ## Claim C5 -/

/-- Environment identical to the happy path except that the cover download
raises. -/
def downloadFailEnv : Env := { happyEnv with downloadResult := none }

/-- Claim C5 (code bug): on a cache miss whose image download fails, the
delivered card's image slot is NOT cleared.  At render time the embed's
`image.url` is populated with the remote cover URL
(`embed['image']['url'] = level_info.get('cover_img', {}).get('url')`) and
the download-failure path sends that embed unchanged — despite its own
comment "Send embed without image" — so the delivered card still carries
the remote cover URL as its image reference. -/
theorem C5_download_failure_keeps_cover_url :
    (wonderland downloadFailEnv "12345" "os_asia" [] 0).downloadCalls = 1 ∧
    (wonderland downloadFailEnv "12345" "os_asia" [] 0).sent
      = [Delivered.card { title := "Lvl", description := "D", image := some "https://img.example/cover.png" } false] := by
  constructor <;> rfl

/-! ## Claim C6 -/

lemma findRow_upsert_new (g s u : String) (o : Option String) (t : Nat)
    (L : Ledger) (h : findRow L g s = none) :
    findRow (upsertRows g s u o t L) g s
      = some { guid := g, server := s, image_url := u, original_url := o, created_at := t, updated_at := t } := by
  induction L with
  | nil => simp [upsertRows, findRow, List.find?, rowMatches]
  | cons r rs ih =>
    have hr : rowMatches g s r = false := by
      cases hm : rowMatches g s r
      · rfl
      · rw [findRow, List.find?_cons_of_pos _ hm] at h
        cases h
    have hrs : findRow rs g s = none := by
      rw [findRow, List.find?_cons_of_neg _ (by simp [hr])] at h
      exact h
    simp only [upsertRows]
    rw [if_neg (by simp [hr]), findRow,
      List.find?_cons_of_neg _ (by simp [hr])]
    exact ih hrs

/-- Environment identical to the happy path except that the upload send
fails. -/
def uploadFailEnv : Env := { happyEnv with uploadSendOk := false }

/-- Claim C6 (counterexample): when the upload send fails entirely, the
pipeline does not deliver the card without the image — it delivers nothing.
The helper catches the send failure and returns `None`, and the cog only
logs; the user is left with no response on this leg. -/
theorem C6_counterexample_upload_failure_silent :
    (wonderland uploadFailEnv "12345" "os_asia" [] 0).downloadCalls = 1 ∧
    (wonderland uploadFailEnv "12345" "os_asia" [] 0).uploadSendCalls = 1 ∧
    (wonderland uploadFailEnv "12345" "os_asia" [] 0).sent = [] := by
  refine ⟨rfl, rfl, rfl⟩

/-- Claim C6 as amended: on the cache-miss image path, when the upload send
succeeds and a hosted URL is retrieved (and the ledger write succeeds), the
pipeline upserts the ledger entry for (levelId, region) with that URL; when
the upload send fails entirely, the pipeline delivers nothing on this leg —
the failure is logged only, and no degraded card is sent. -/
theorem C6_upload_upsert_or_silent (env : Env) (guid server : String)
    (L : Ledger) (now : Nat) (body : ApiBody) (ld : LevelDetail)
    (dd : LevelDetailData) (info : LevelInfo) (p : String)
    (hvalid : pyIsDigit guid = true)
    (hdefer : env.deferOk = true)
    (hpost : env.postRaises = false)
    (hstatus : env.status = 200)
    (hdec : env.decode = DecodeOutcome.ok body)
    (hret : body.retcode = some 0)
    (hld : body.level_detail = some ld)
    (hldret : ld.retcode = some 0)
    (hdata : ld.data_ = some dd)
    (hinfo : dd.level_info = some info)
    (hcov : truthyOpt info.cover_img_url = true)
    (hget : env.dbGetOk = true)
    (hmiss : findRow L guid server = none)
    (hdl : env.downloadResult = some p) :
    (∀ u : String, env.uploadSendOk = true → env.hostedUrl = some u →
      env.dbSaveOk = true →
      findRow (wonderland env guid server L now).ledger guid server
        = some { guid := guid, server := server, image_url := u, original_url := some (info.cover_img_url.getD ""), created_at := now, updated_at := now }) ∧
    (env.uploadSendOk = false →
      (wonderland env guid server L now).sent = [] ∧
      (wonderland env guid server L now).raised = false) := by
  have hw : wonderland env guid server L now
      = imageMissLeg env false guid server (info.cover_img_url.getD "") now
          { title := info.level_name.getD "N/A",
            description := info.desc.getD "N/A",
            image := info.cover_img_url }
          { raised := false, sent := [], lookupCalls := 1,
            downloadCalls := 0, uploadSendCalls := 0, deleteAttempts := [],
            ledger := L, scratchFiles := [] } := by
    have hbd := level_detail_eq_some hld
    have hiv := level_info_eq_some hinfo
    have hcd := cover_img_dict_of_truthy hcov
    simp [wonderland, hvalid, hdefer, hpost, hstatus, hdec, hret, hbd,
      hldret, hdata, hiv, hcd, hcov, hget, get_cached_image, hmiss]
  constructor
  · intro u hu hhu hsave
    rw [hw]
    unfold imageMissLeg
    rw [hdl]
    simp only [hu, hhu, hsave, Bool.false_and, if_false]
    simp [save_cached_image]
    exact findRow_upsert_new guid server u
      (some (info.cover_img_url.getD "")) now L hmiss
  · intro hu
    rw [hw]
    unfold imageMissLeg
    rw [hdl]
    simp [hu]

/-- Witness for C6's amended theorem: the happy-path environment on an empty
ledger. -/
theorem C6_upload_upsert_or_silent_witness :
    (∀ u : String, happyEnv.uploadSendOk = true →
      happyEnv.hostedUrl = some u → happyEnv.dbSaveOk = true →
      findRow (wonderland happyEnv "12345" "os_asia" [] 0).ledger
        "12345" "os_asia"
        = some { guid := "12345", server := "os_asia", image_url := u, original_url := some (sampleInfo.cover_img_url.getD ""), created_at := 0, updated_at := 0 }) ∧
    (happyEnv.uploadSendOk = false →
      (wonderland happyEnv "12345" "os_asia" [] 0).sent = [] ∧
      (wonderland happyEnv "12345" "os_asia" [] 0).raised = false) :=
  C6_upload_upsert_or_silent happyEnv "12345" "os_asia" [] 0 sampleBody
    sampleDetail { level_info_val := some (LevelInfoVal.dict sampleInfo) }
    sampleInfo "12345_os_asia_777.png"
    (by decide) rfl rfl rfl rfl rfl rfl rfl rfl rfl (by decide) rfl rfl rfl
